import Mathlib

/-!
Verification of the vibrator controller JNI layer
(services/core/jni/com_android_server_vibrator_VibratorController.cpp).

The file shallowly embeds the native functions of that translation unit.
The hardware driver (the vibratorservice HAL layer behind
`vibrator::HalController`) is external to the sources: its response to one
dispatched operation is therefore abstracted as an explicit `HalResult`
parameter, and the operation the native function hands to `halCall`
(together with the callback token it closes over) is recorded as a
`DriverCall` trace entry, so that theorems can speak about which driver
calls are attempted and with which arguments.
-/

namespace VibratorJni

/-- Model of a jfloat where only reported-versus-not-reported matters:
`nan` is the not-a-number sentinel the code uses via `valueOr(NAN)`,
`val q` is an ordinary numeric value. -/
inductive JF where
  | nan : JF
  | val : ℚ → JF
deriving DecidableEq, Repr

/-- Result envelope `vibrator::HalResult<T>`: success with a value,
operation unsupported by the active driver version, or failure. -/
inductive HalResult (α : Type) where
  | ok : α → HalResult α
  | unsupported : HalResult α
  | failed : HalResult α
deriving DecidableEq, Repr

/-- `HalResult<T>::isOk()`. -/
def HalResult.isOk : HalResult α → Bool
  | .ok _ => true
  | _ => false

/-- `HalResult<T>::isUnsupported()`. -/
def HalResult.isUnsupported : HalResult α → Bool
  | .unsupported => true
  | _ => false

/-- `HalResult<T>::isFailed()`. -/
def HalResult.isFailed : HalResult α → Bool
  | .failed => true
  | _ => false

/-- `HalResult<T>::valueOr(default)`. -/
def HalResult.valueOr : HalResult α → α → α
  | .ok a, _ => a
  | _, d => d

/-- `aidl::CompositeEffect` as built by `effectFromJavaPrimitive`:
primitive id, scale factor and inter-primitive delay in milliseconds. -/
structure CompositeEffect where
  primitive : ℤ
  scale : JF
  delayMs : ℤ
deriving DecidableEq, Repr

/-- One driver operation dispatched through `wrapper->halCall`, with the
arguments the native function closed over.  The `Int` argument named by a
call that schedules completion is the `vibrationId` captured by
`createCallback`. -/
inductive DriverCall where
  | ping : DriverCall
  | on : ℤ → ℤ → DriverCall
  | off : DriverCall
  | setAmplitude : JF → DriverCall
  | setExternalControl : Bool → DriverCall
  | performEffect : ℤ → ℤ → ℤ → DriverCall
  | performComposedEffect : List CompositeEffect → ℤ → DriverCall
  | alwaysOnEnable : ℤ → ℤ → ℤ → DriverCall
  | alwaysOnDisable : ℤ → DriverCall
deriving DecidableEq, Repr

/-- Live handle to the HAL controller selected for one actuator
(`std::shared_ptr<vibrator::HalController>` when non-null). -/
structure HalHandle where
  id : ℕ
deriving DecidableEq, Repr

/-- A successfully created JNI global reference to the callback listener. -/
structure GlobalRef where
  id : ℕ
deriving DecidableEq, Repr

/-- `VibratorControllerWrapper` after a completed construction: the HAL
handle, the vibrator id and the callback listener global reference.  All
three fields are `const` in the source; `mHal` is non-null here by type. -/
structure VibratorControllerWrapper where
  mHal : HalHandle
  mVibratorId : ℤ
  mCallbackListener : GlobalRef
deriving DecidableEq, Repr

/-- Outcome of running the `VibratorControllerWrapper` constructor:
either a `LOG_ALWAYS_FATAL` abort with its message, or the wrapper. -/
inductive ConstructResult where
  | fatal : String → ConstructResult
  | ok : VibratorControllerWrapper → ConstructResult
deriving DecidableEq, Repr

/-- The `VibratorControllerWrapper` constructor.  `halLookup` is the value
`findVibrator(vibratorId)` produced (null when no driver version responded
or the id is invalid); `globalRef` is the result of
`env->NewGlobalRef(callbackListener)` (null on failure).  The constructor
aborts with `LOG_ALWAYS_FATAL_IF` when either is null. -/
def constructWrapper (halLookup : Option HalHandle) (vibratorId : ℤ)
    (globalRef : Option GlobalRef) : ConstructResult :=
  match halLookup with
  | none => .fatal "Failed to connect to vibrator HAL, or vibratorId is invalid"
  | some hal =>
    match globalRef with
    | none => .fatal "Unable to create global reference to vibration callback handler"
    | some ref => .ok ⟨hal, vibratorId, ref⟩

/-- `vibratorIsAvailable`: null wrapper gives JNI_FALSE with no driver
call; otherwise `ping` is dispatched and the result of `isOk()` returned.
`halResult` is the envelope `halCall` returned for the dispatched call. -/
def vibratorIsAvailable (ptr : Option VibratorControllerWrapper)
    (halResult : HalResult Unit) : Bool × List DriverCall :=
  match ptr with
  | none => (false, [])
  | some _ => (halResult.isOk, [DriverCall.ping])

/-- `vibratorOn`: null wrapper gives -1 with no driver call; otherwise the
`on` operation is dispatched with the requested timeout and the completion
callback for `vibrationId`, and the return value is
`result.isOk() ? timeoutMs : (result.isUnsupported() ? 0 : -1)`. -/
def vibratorOn (ptr : Option VibratorControllerWrapper) (timeoutMs vibrationId : ℤ)
    (halResult : HalResult Unit) : ℤ × List DriverCall :=
  match ptr with
  | none => (-1, [])
  | some _ =>
    (if halResult.isOk then timeoutMs else if halResult.isUnsupported then 0 else -1,
     [DriverCall.on timeoutMs vibrationId])

/-- `vibratorOff`: null wrapper returns with no driver call; otherwise the
`off` operation is dispatched and its result discarded. -/
def vibratorOff (ptr : Option VibratorControllerWrapper) : List DriverCall :=
  match ptr with
  | none => []
  | some _ => [DriverCall.off]

/-- `vibratorSetAmplitude`: null wrapper returns with no driver call;
otherwise the amplitude is passed to the driver `setAmplitude` operation
unchanged and the result is discarded.  The function performs no range
check on `amplitude`. -/
def vibratorSetAmplitude (ptr : Option VibratorControllerWrapper)
    (amplitude : JF) : List DriverCall :=
  match ptr with
  | none => []
  | some _ => [DriverCall.setAmplitude amplitude]

/-- `vibratorSetExternalControl`: null wrapper returns with no driver
call; otherwise `setExternalControl(enabled)` is dispatched. -/
def vibratorSetExternalControl (ptr : Option VibratorControllerWrapper)
    (enabled : Bool) : List DriverCall :=
  match ptr with
  | none => []
  | some _ => [DriverCall.setExternalControl enabled]

/-- `vibratorPerformEffect`: null wrapper gives -1 with no driver call;
otherwise `performEffect(effect, strength, callback)` is dispatched and
the return value is
`result.isOk() ? result.value().count() : (result.isUnsupported() ? 0 : -1)`.
The `HalResult ℤ` carries the driver-reported duration in milliseconds. -/
def vibratorPerformEffect (ptr : Option VibratorControllerWrapper)
    (effect strength vibrationId : ℤ) (halResult : HalResult ℤ) : ℤ × List DriverCall :=
  match ptr with
  | none => (-1, [])
  | some _ =>
    (match halResult with
     | .ok durationMs => durationMs
     | .unsupported => 0
     | .failed => -1,
     [DriverCall.performEffect effect strength vibrationId])

/-- `vibratorPerformComposedEffect`: null wrapper gives -1 with no driver
call; otherwise every primitive of `composition` is converted and the
whole vector, empty or not, is dispatched as
`performComposedEffect(effects, callback)`; the return value is
`result.isOk() ? result.value().count() : (result.isUnsupported() ? 0 : -1)`. -/
def vibratorPerformComposedEffect (ptr : Option VibratorControllerWrapper)
    (composition : List CompositeEffect) (vibrationId : ℤ)
    (halResult : HalResult ℤ) : ℤ × List DriverCall :=
  match ptr with
  | none => (-1, [])
  | some _ =>
    (match halResult with
     | .ok durationMs => durationMs
     | .unsupported => 0
     | .failed => -1,
     [DriverCall.performComposedEffect composition vibrationId])

/-- `vibratorAlwaysOnEnable`: null wrapper returns with no driver call;
otherwise `alwaysOnEnable(id, effect, strength)` is dispatched. -/
def vibratorAlwaysOnEnable (ptr : Option VibratorControllerWrapper)
    (id effect strength : ℤ) : List DriverCall :=
  match ptr with
  | none => []
  | some _ => [DriverCall.alwaysOnEnable id effect strength]

/-- `vibratorAlwaysOnDisable`: null wrapper returns with no driver call;
otherwise `alwaysOnDisable(id)` is dispatched. -/
def vibratorAlwaysOnDisable (ptr : Option VibratorControllerWrapper)
    (id : ℤ) : List DriverCall :=
  match ptr with
  | none => []
  | some _ => [DriverCall.alwaysOnDisable id]

/-- `vibrator::Info` as consumed by `vibratorGetInfo`: each field is the
envelope the HAL reported for that query. -/
structure Info where
  capabilities : HalResult ℤ
  supportedEffects : HalResult (List ℤ)
  supportedPrimitives : HalResult (List ℤ)
  resonantFrequency : HalResult JF
  qFactor : HalResult JF
deriving DecidableEq, Repr

/-- `vibrator::Capabilities::NONE`: the empty capability bit-set. -/
def capabilitiesNone : ℤ := 0

/-- The `android.os.VibratorInfo$FrequencyMapping` object built by
`vibratorGetInfo`; `maxAmplitudes` is passed as null. -/
structure FrequencyMapping where
  minFrequencyHz : JF
  resonantFrequencyHz : JF
  frequencyResolutionHz : JF
  suggestedSafeRangeHz : JF
  maxAmplitudes : Option (List JF)
deriving DecidableEq, Repr

/-- The `android.os.VibratorInfo` object built by `vibratorGetInfo`.
`supportedEffects` and `supportedPrimitives` are null (`none`) when the
corresponding HAL query did not report Ok. -/
structure VibratorInfoObj where
  id : ℤ
  capabilities : ℤ
  supportedEffects : Option (List ℤ)
  supportedPrimitives : Option (List ℤ)
  qFactor : JF
  frequencyMapping : FrequencyMapping
deriving DecidableEq, Repr

/-- `vibratorGetInfo`: null wrapper gives null; otherwise a VibratorInfo
object is always built from `wrapper->getVibratorInfo()` with
`valueOr` defaults: `Capabilities::NONE` for the capability bit-set, NAN
for resonant frequency and Q-factor, null arrays for unreported effect
and primitive lists, and NAN for the frequency-mapping fields the code
never fills (min frequency, resolution, suggested safe range). -/
def vibratorGetInfo (ptr : Option VibratorControllerWrapper)
    (info : Info) : Option VibratorInfoObj :=
  match ptr with
  | none => none
  | some wrapper =>
    let capabilities : ℤ := info.capabilities.valueOr capabilitiesNone
    let resonantFrequency : JF := info.resonantFrequency.valueOr JF.nan
    let qFactor : JF := info.qFactor.valueOr JF.nan
    let supportedEffects : Option (List ℤ) :=
      if info.supportedEffects.isOk then some (info.supportedEffects.valueOr []) else none
    let supportedPrimitives : Option (List ℤ) :=
      if info.supportedPrimitives.isOk then some (info.supportedPrimitives.valueOr []) else none
    let frequencyMapping : FrequencyMapping :=
      { minFrequencyHz := JF.nan
        resonantFrequencyHz := resonantFrequency
        frequencyResolutionHz := JF.nan
        suggestedSafeRangeHz := JF.nan
        maxAmplitudes := none }
    some
      { id := wrapper.mVibratorId
        capabilities := capabilities
        supportedEffects := supportedEffects
        supportedPrimitives := supportedPrimitives
        qFactor := qFactor
        frequencyMapping := frequencyMapping }

/-- Outcome of one attempt of a driver operation, as classified by the
retry layer: success, semantically unsupported, a transient failure
(driver unreachable or mid-restart), or a permanent failure. -/
inductive AttemptOutcome (α : Type) where
  | ok : α → AttemptOutcome α
  | unsupported : AttemptOutcome α
  | transientFailure : AttemptOutcome α
  | permanentFailure : AttemptOutcome α
deriving DecidableEq, Repr

/-- Modelled from the spec: the fixed bound of the retry policy of the
Retry Dispatcher (`HalController::doWithRetry`, whose implementation is
not among the sources; only its caller `halCall` is).  The bound counts
total attempts: one initial attempt plus a fixed number of retries. -/
def maxAttempts : ℕ := 2

/-- Modelled from the spec: the retry loop of the Retry Dispatcher.
`stub` maps the attempt index to that attempt's classified outcome;
`fuel` is the number of attempts still allowed and `i` the index of the
next attempt.  Success, unsupported and permanent failures return at
once; a transient failure is retried (after reconnecting) while attempts
remain and becomes Failed when they are exhausted.  The second component
is the number of attempts made. -/
def retryLoop (stub : ℕ → AttemptOutcome α) : ℕ → ℕ → HalResult α × ℕ
  | 0, i => (HalResult.failed, i)
  | fuel + 1, i =>
    match stub i with
    | .ok a => (HalResult.ok a, i + 1)
    | .unsupported => (HalResult.unsupported, i + 1)
    | .permanentFailure => (HalResult.failed, i + 1)
    | .transientFailure =>
      if fuel = 0 then (HalResult.failed, i + 1) else retryLoop stub fuel (i + 1)

/-- Modelled from the spec: `doWithRetry`, the entry point of the Retry
Dispatcher reached through `VibratorControllerWrapper::halCall`: run the
retry loop from attempt 0 with the fixed policy bound. -/
def doWithRetry (stub : ℕ → AttemptOutcome α) : HalResult α × ℕ :=
  retryLoop stub maxAttempts 0

/-- A driver stub that fails transiently on exactly the first `k`
attempts and then succeeds with value `a`. -/
def transientThenOk (k : ℕ) (a : α) : ℕ → AttemptOutcome α := fun i =>
  if i < k then AttemptOutcome.transientFailure else AttemptOutcome.ok a

end VibratorJni

namespace VibratorJni

/-- A concrete constructed wrapper used by closed instances. -/
def w0 : VibratorControllerWrapper := ⟨⟨0⟩, 0, ⟨0⟩⟩

/-- A driver info snapshot in which every query failed. -/
def infoAllFailed : Info :=
  { capabilities := HalResult.failed
    supportedEffects := HalResult.failed
    supportedPrimitives := HalResult.failed
    resonantFrequency := HalResult.failed
    qFactor := HalResult.failed }

/-- The VibratorInfo object `vibratorGetInfo` builds from `infoAllFailed`
for `w0`: capability bit-set NONE, null arrays, NAN frequency data. -/
def objAllFailed : VibratorInfoObj :=
  { id := 0
    capabilities := capabilitiesNone
    supportedEffects := none
    supportedPrimitives := none
    qFactor := JF.nan
    frequencyMapping :=
      { minFrequencyHz := JF.nan
        resonantFrequencyHz := JF.nan
        frequencyResolutionHz := JF.nan
        suggestedSafeRangeHz := JF.nan
        maxAmplitudes := none } }

/-- HalResult.valueOr returns the default exactly when the envelope is
not Ok. -/
theorem HalResult.valueOr_of_isOk_false {α : Type} {r : HalResult α} (d : α)
    (h : r.isOk = false) : r.valueOr d = d := by
  cases r with
  | ok a => simp [HalResult.isOk] at h
  | unsupported => rfl
  | failed => rfl

end VibratorJni

namespace VibratorJni

/-- C1 counterexample: with a constructed wrapper, `setAmplitude(0)` and
`setAmplitude(1.5)` each dispatch the driver `setAmplitude` operation
carrying the out-of-range value — the input reaches the driver (the
dispatched-call list is not empty), contrary to the claim that it is
rejected before any driver call is attempted. -/
theorem setAmplitude_out_of_range_reaches_driver :
    vibratorSetAmplitude (some w0) (JF.val 0) = [DriverCall.setAmplitude (JF.val 0)]
    ∧ vibratorSetAmplitude (some w0) (JF.val (3 / 2))
        = [DriverCall.setAmplitude (JF.val (3 / 2))]
    ∧ vibratorSetAmplitude (some w0) (JF.val 0) ≠ []
    ∧ vibratorSetAmplitude (some w0) (JF.val (3 / 2)) ≠ [] := by
  refine ⟨rfl, rfl, by decide, by decide⟩

/-- C1 (amended): `vibratorSetAmplitude` performs no range validation:
every amplitude value, inside the interval (0,1] or not, is forwarded
unchanged to the driver `setAmplitude` operation through the retry layer,
and the operation reports no Result case to the caller (void return). -/
theorem setAmplitude_forwards_every_amplitude :
    ∀ (w : VibratorControllerWrapper) (amplitude : JF),
      vibratorSetAmplitude (some w) amplitude = [DriverCall.setAmplitude amplitude] := by
  intro w amplitude
  rfl

/-- C2 counterexample: an empty primitive sequence is not special-cased.
With a constructed wrapper and a driver that reports failure, the call
returns -1 (not 0), and the empty vector is dispatched to the driver
together with the completion callback for vibration id 7. -/
theorem empty_composition_not_special_cased :
    (vibratorPerformComposedEffect (some w0) [] 7 HalResult.failed).1 = -1
    ∧ (vibratorPerformComposedEffect (some w0) [] 7 HalResult.failed).2
        = [DriverCall.performComposedEffect [] 7] := by
  exact ⟨rfl, rfl⟩

/-- C2 (amended): `vibratorPerformComposedEffect` forwards an empty
primitive sequence to the driver like any other sequence, together with
the completion callback, and maps the driver result exactly as for a
non-empty sequence: the driver-reported duration on Ok, 0 on Unsupported
and -1 on failure.  The empty sequence yields 0 only when the driver
itself reports Ok with duration 0 or reports Unsupported. -/
theorem empty_composition_forwarded_to_driver :
    ∀ (w : VibratorControllerWrapper) (vibrationId : ℤ) (r : HalResult ℤ),
      vibratorPerformComposedEffect (some w) [] vibrationId r
        = ((match r with
            | HalResult.ok durationMs => durationMs
            | HalResult.unsupported => 0
            | HalResult.failed => -1),
           [DriverCall.performComposedEffect [] vibrationId]) := by
  intro w vibrationId r
  cases r <;> rfl

end VibratorJni

namespace VibratorJni

/-- A driver info snapshot whose supported-effect query reported effect 0
as supported, used to show `vibratorPerformEffect` does not consult it. -/
def infoEffectSupported : Info :=
  { capabilities := HalResult.ok 0
    supportedEffects := HalResult.ok [0]
    supportedPrimitives := HalResult.failed
    resonantFrequency := HalResult.failed
    qFactor := HalResult.failed }

/-- C3 counterexample: the code imposes no link between the capability
snapshot and the outcome of `performEffect`.  With a driver whose info
reports effect 0 as supported, `vibratorGetInfo` publishes effect 0 in
the supported set, yet when the same driver fails the dispatched
`performEffect(0, strength 0)` call, the function returns -1: a pair the
Capability Descriptor reports as supported is not guaranteed an Ok
non-negative result by this code. -/
theorem performEffect_supported_pair_can_fail :
    (vibratorGetInfo (some w0) infoEffectSupported).map VibratorInfoObj.supportedEffects
      = some (some [0])
    ∧ (vibratorPerformEffect (some w0) 0 0 5 HalResult.failed).1 = -1 := by
  exact ⟨rfl, rfl⟩

/-- C3 (amended): `vibratorPerformEffect` maps the driver result exactly:
the driver-reported duration in milliseconds when the call succeeds, 0
(and never -1) when the driver reports the operation unsupported, and -1
only on failure.  No guarantee links the supported set the Capability
Descriptor reports to the outcome of a later `performEffect` call. -/
theorem performEffect_result_mapping :
    ∀ (w : VibratorControllerWrapper) (effect strength vibrationId : ℤ),
      (∀ durationMs : ℤ,
        (vibratorPerformEffect (some w) effect strength vibrationId
          (HalResult.ok durationMs)).1 = durationMs)
      ∧ (vibratorPerformEffect (some w) effect strength vibrationId
          HalResult.unsupported).1 = 0
      ∧ (vibratorPerformEffect (some w) effect strength vibrationId
          HalResult.unsupported).1 ≠ -1
      ∧ (vibratorPerformEffect (some w) effect strength vibrationId
          HalResult.failed).1 = -1 := by
  intro w effect strength vibrationId
  exact ⟨fun d => rfl, rfl, show (0 : ℤ) ≠ -1 by decide, rfl⟩

/-- C4: `vibratorOn` returns the requested duration on success (the value
returned equals the requested `timeoutMs`), 0 when the driver reports the
operation unsupported, and -1 on failure; in every dispatched case the
`on` operation is handed to the driver with the requested duration and
the completion callback for `vibrationId`, which is how the completion
notification for that duration is scheduled. -/
theorem on_result_mapping_and_completion :
    ∀ (w : VibratorControllerWrapper) (timeoutMs vibrationId : ℤ),
      vibratorOn (some w) timeoutMs vibrationId (HalResult.ok ())
        = (timeoutMs, [DriverCall.on timeoutMs vibrationId])
      ∧ (vibratorOn (some w) timeoutMs vibrationId HalResult.unsupported).1 = 0
      ∧ (vibratorOn (some w) timeoutMs vibrationId HalResult.failed).1 = -1
      ∧ (vibratorOn (some w) timeoutMs vibrationId HalResult.unsupported).2
          = [DriverCall.on timeoutMs vibrationId] := by
  intro w timeoutMs vibrationId
  exact ⟨rfl, rfl, rfl, rfl⟩

/-- C5: `vibratorGetInfo` with a constructed wrapper never fails: whatever
combination of Ok, Unsupported and Failed the driver info fields hold, a
VibratorInfo object is returned; in particular even when every query
failed, the snapshot is the best-effort object with capability bit-set
NONE, null arrays and NAN frequency data. -/
theorem getInfo_never_fails :
    (∀ (w : VibratorControllerWrapper) (info : Info),
      (vibratorGetInfo (some w) info).isSome = true)
    ∧ vibratorGetInfo (some w0) infoAllFailed = some objAllFailed := by
  exact ⟨fun w info => rfl, rfl⟩

end VibratorJni

namespace VibratorJni

/-- C6: when the driver info does not report a resonant frequency and
does not report a Q-factor, the snapshot built by `vibratorGetInfo` maps
both to NAN, and the frequency-mapping fields the code never fills
(minimum frequency, frequency resolution, suggested safe range) are NAN
as well; none of these fields ever carries a synthesized numeric value. -/
theorem getInfo_absent_frequency_maps_to_nan
    (w : VibratorControllerWrapper) (info : Info)
    (h1 : info.resonantFrequency.isOk = false) (h2 : info.qFactor.isOk = false) :
    ∃ obj : VibratorInfoObj, vibratorGetInfo (some w) info = some obj
      ∧ obj.frequencyMapping.resonantFrequencyHz = JF.nan
      ∧ obj.qFactor = JF.nan
      ∧ obj.frequencyMapping.minFrequencyHz = JF.nan
      ∧ obj.frequencyMapping.frequencyResolutionHz = JF.nan
      ∧ obj.frequencyMapping.suggestedSafeRangeHz = JF.nan
      ∧ ∀ q : ℚ, obj.frequencyMapping.resonantFrequencyHz ≠ JF.val q
          ∧ obj.qFactor ≠ JF.val q := by
  refine ⟨{ id := w.mVibratorId
            capabilities := info.capabilities.valueOr capabilitiesNone
            supportedEffects :=
              if info.supportedEffects.isOk
                then some (info.supportedEffects.valueOr []) else none
            supportedPrimitives :=
              if info.supportedPrimitives.isOk
                then some (info.supportedPrimitives.valueOr []) else none
            qFactor := info.qFactor.valueOr JF.nan
            frequencyMapping :=
              ⟨JF.nan, info.resonantFrequency.valueOr JF.nan, JF.nan, JF.nan, none⟩ },
          rfl, ?_, ?_, rfl, rfl, rfl, fun q => ⟨?_, ?_⟩⟩
  · exact HalResult.valueOr_of_isOk_false _ h1
  · exact HalResult.valueOr_of_isOk_false _ h2
  · show info.resonantFrequency.valueOr JF.nan ≠ JF.val q
    rw [HalResult.valueOr_of_isOk_false _ h1]
    exact fun h => JF.noConfusion h
  · show info.qFactor.valueOr JF.nan ≠ JF.val q
    rw [HalResult.valueOr_of_isOk_false _ h2]
    exact fun h => JF.noConfusion h

/-- C6 witness at the all-failed driver info. -/
theorem getInfo_absent_frequency_maps_to_nan_witness :
    infoAllFailed.resonantFrequency.isOk = false
    ∧ infoAllFailed.qFactor.isOk = false
    ∧ ∃ obj : VibratorInfoObj, vibratorGetInfo (some w0) infoAllFailed = some obj
        ∧ obj.frequencyMapping.resonantFrequencyHz = JF.nan
        ∧ obj.qFactor = JF.nan
        ∧ obj.frequencyMapping.minFrequencyHz = JF.nan
        ∧ obj.frequencyMapping.frequencyResolutionHz = JF.nan
        ∧ obj.frequencyMapping.suggestedSafeRangeHz = JF.nan
        ∧ ∀ q : ℚ, obj.frequencyMapping.resonantFrequencyHz ≠ JF.val q
            ∧ obj.qFactor ≠ JF.val q :=
  ⟨rfl, rfl, getInfo_absent_frequency_maps_to_nan w0 infoAllFailed rfl rfl⟩

/-- C7: the capability bit-set of the snapshot built by `vibratorGetInfo`
comes only from the live driver: when the driver reported a capability
set it is copied verbatim (so every set bit was advertised by the
driver), and when the driver reported no capability set at all the
snapshot carries `Capabilities::NONE`. -/
theorem getInfo_capabilities_only_from_driver
    (w : VibratorControllerWrapper) (info : Info) (obj : VibratorInfoObj)
    (h : vibratorGetInfo (some w) info = some obj) :
    (info.capabilities.isOk = false → obj.capabilities = capabilitiesNone)
    ∧ ∀ c : ℤ, info.capabilities = HalResult.ok c → obj.capabilities = c := by
  simp only [vibratorGetInfo] at h
  injection h with h
  subst h
  constructor
  · intro hcap
    exact HalResult.valueOr_of_isOk_false _ hcap
  · intro c hc
    show info.capabilities.valueOr capabilitiesNone = c
    rw [hc]
    rfl

/-- C7 witness at the all-failed driver info. -/
theorem getInfo_capabilities_only_from_driver_witness :
    vibratorGetInfo (some w0) infoAllFailed = some objAllFailed
    ∧ ((infoAllFailed.capabilities.isOk = false
          → objAllFailed.capabilities = capabilitiesNone)
       ∧ ∀ c : ℤ, infoAllFailed.capabilities = HalResult.ok c
          → objAllFailed.capabilities = c) :=
  ⟨rfl, getInfo_capabilities_only_from_driver w0 infoAllFailed objAllFailed rfl⟩

/-- C8: when `findVibrator` produced no HAL handle (no driver version
responded, or the vibrator id is invalid), the wrapper constructor aborts
with the `LOG_ALWAYS_FATAL` connection-failure message instead of
completing; and every construction that does complete returns a wrapper
whose HAL handle is exactly the non-null handle the lookup produced, so
the caller never obtains a wrapper with a null driver handle. -/
theorem construction_fatal_without_driver :
    (∀ (vibratorId : ℤ) (globalRef : Option GlobalRef),
        constructWrapper none vibratorId globalRef
          = ConstructResult.fatal
              "Failed to connect to vibrator HAL, or vibratorId is invalid")
    ∧ ∀ (halLookup : Option HalHandle) (vibratorId : ℤ)
        (globalRef : Option GlobalRef) (w : VibratorControllerWrapper),
        constructWrapper halLookup vibratorId globalRef = ConstructResult.ok w →
          halLookup = some w.mHal := by
  constructor
  · intro vibratorId globalRef
    rfl
  · intro halLookup vibratorId globalRef w h
    cases halLookup with
    | none => simp [constructWrapper] at h
    | some hal =>
      cases globalRef with
      | none => simp [constructWrapper] at h
      | some ref =>
        injection h with h
        subst h
        rfl

/-- C8 witness: a lookup that produced handle 3 yields a constructed
wrapper carrying exactly handle 3. -/
theorem construction_fatal_without_driver_witness :
    constructWrapper (some ⟨3⟩) 1 (some ⟨4⟩) = ConstructResult.ok ⟨⟨3⟩, 1, ⟨4⟩⟩
    ∧ (some ⟨3⟩ : Option HalHandle)
        = some (VibratorControllerWrapper.mk ⟨3⟩ 1 ⟨4⟩).mHal :=
  ⟨rfl, construction_fatal_without_driver.2 (some ⟨3⟩) 1 (some ⟨4⟩) ⟨⟨3⟩, 1, ⟨4⟩⟩ rfl⟩

end VibratorJni

namespace VibratorJni

/-- C9: behaviour of the Retry Dispatcher reached through `halCall`.
With a driver stub that fails transiently exactly `k` times and then
succeeds, `doWithRetry` succeeds exactly when `k` is below the fixed
policy bound, and once `k` reaches the bound the call returns Failed
after exhausting exactly `maxAttempts` attempts; a permanent failure is
returned after a single attempt with no retry; an Unsupported report
propagates after a single attempt with no retry. -/
theorem doWithRetry_bound_and_classification :
    (∀ k : ℕ, ((doWithRetry (transientThenOk k (0 : ℤ))).1).isOk
        = decide (k < maxAttempts))
    ∧ (∀ m : ℕ, doWithRetry (transientThenOk (m + maxAttempts) (0 : ℤ))
        = (HalResult.failed, maxAttempts))
    ∧ doWithRetry (fun _ => (AttemptOutcome.permanentFailure : AttemptOutcome ℤ))
        = (HalResult.failed, 1)
    ∧ doWithRetry (fun _ => (AttemptOutcome.unsupported : AttemptOutcome ℤ))
        = (HalResult.unsupported, 1) := by
  refine ⟨?_, ?_, rfl, rfl⟩
  · intro k
    match k with
    | 0 => rfl
    | 1 => rfl
    | n + 2 =>
      show ((retryLoop (transientThenOk (n + 2) (0 : ℤ)) 2 0).1).isOk
        = decide (n + 2 < 2)
      have h0 : transientThenOk (n + 2) (0 : ℤ) 0 = AttemptOutcome.transientFailure :=
        if_pos (by omega)
      have h1 : transientThenOk (n + 2) (0 : ℤ) 1 = AttemptOutcome.transientFailure :=
        if_pos (by omega)
      have hn : ¬(n + 2 < 2) := by omega
      simp [retryLoop, h0, h1, HalResult.isOk, hn]
  · intro m
    show retryLoop (transientThenOk (m + 2) (0 : ℤ)) 2 0 = (HalResult.failed, 2)
    have h0 : transientThenOk (m + 2) (0 : ℤ) 0 = AttemptOutcome.transientFailure :=
      if_pos (by omega)
    have h1 : transientThenOk (m + 2) (0 : ℤ) 1 = AttemptOutcome.transientFailure :=
      if_pos (by omega)
    simp [retryLoop, h0, h1]

/-- C10: every public native operation invoked with a null native wrapper
pointer dispatches no driver call and returns the failure value of that
operation: `isAvailable` gives false, `on`, `performEffect` and
`performComposedEffect` give -1, `getInfo` gives null, and the void
operations (`off`, `setAmplitude`, `setExternalControl`,
`alwaysOnEnable`, `alwaysOnDisable`) return without any driver call. -/
theorem null_wrapper_is_safe :
    ∀ (timeoutMs vibrationId effect strength slotId : ℤ) (amplitude : JF)
      (enabled : Bool) (composition : List CompositeEffect) (info : Info)
      (ru : HalResult Unit) (rd : HalResult ℤ),
      vibratorIsAvailable none ru = (false, [])
      ∧ vibratorOn none timeoutMs vibrationId ru = (-1, [])
      ∧ vibratorOff none = []
      ∧ vibratorSetAmplitude none amplitude = []
      ∧ vibratorSetExternalControl none enabled = []
      ∧ vibratorPerformEffect none effect strength vibrationId rd = (-1, [])
      ∧ vibratorPerformComposedEffect none composition vibrationId rd = (-1, [])
      ∧ vibratorAlwaysOnEnable none slotId effect strength = []
      ∧ vibratorAlwaysOnDisable none slotId = []
      ∧ vibratorGetInfo none info = none := by
  intro timeoutMs vibrationId effect strength slotId amplitude enabled composition info ru rd
  exact ⟨rfl, rfl, rfl, rfl, rfl, rfl, rfl, rfl, rfl, rfl⟩

end VibratorJni
